import Mathlib

/-!
Verification of `screenshot_tool.py` (a desktop screenshot utility).

This file is a shallow embedding of the parts of the program that the
checked properties speak about: the region picker, the markup editor
(highlight strokes, circles), save/clipboard persistence, push-to-target
window matching, the disk-usage cleanup prompt, and the hotkey in-flight
guard.  Python functions become Lean functions on explicit state records;
external library calls (PIL, win32, tkinter) are modelled at the
granularity the properties need and are documented at each definition.
-/

namespace ScreenshotToolSpec

/-- One RGBA pixel value (each channel 0..255 in the program). -/
structure RGBA where
  r : Nat
  g : Nat
  b : Nat
  a : Nat
deriving DecidableEq, Repr

/-- A raster image: dimensions plus a pixel lookup, modelling a PIL `Image`
at the granularity the checked properties need. -/
structure Img where
  w : Nat
  h : Nat
  px : Int → Int → RGBA

/-- `PIL.Image.crop((x1, y1, x2, y2))`: the sub-image of size
`(x2 - x1) × (y2 - y1)` whose pixel `(i, j)` is the source pixel
`(x1 + i, y1 + j)`. -/
def Img.crop (img : Img) (x1 y1 x2 y2 : Int) : Img :=
  { w := (x2 - x1).toNat
    h := (y2 - y1).toNat
    px := fun i j => img.px (x1 + i) (y1 + j) }

/-- A fixed opaque test image used by concrete witnesses. -/
def testImg : Img :=
  { w := 200, h := 100, px := fun _ _ => ⟨10, 20, 30, 255⟩ }

/-! ## RegionSelector (screenshot_tool.py, class `RegionSelector`)

The selector grabs the screen first (`self.captured_image`), then lets the
user drag a rectangle.  `start_x`/`start_y` are `None` until `on_press`.
The tkinter canvas rectangle item is display-only and is not modelled. -/

structure RegionSelector where
  start_x : Option Int
  start_y : Option Int
  captured_image : Img

/-- What `RegionSelector` reports to its callback:
`selected` is `callback((x1, y1, x2, y2), cropped)`, `cancelled` is
`callback(None, None)`, and `ignored` is the early `return` in
`on_release` when no press was recorded (no callback runs). -/
inductive RegionOutcome
  | selected (x1 y1 x2 y2 : Int) (cropped : Img)
  | cancelled
  | ignored

/-- `RegionSelector.on_press`: record the drag start point. -/
def RegionSelector.on_press (s : RegionSelector) (x y : Int) : RegionSelector :=
  { s with start_x := some x, start_y := some y }

/-- `RegionSelector.on_release`: normalize the dragged rectangle with
min/max, then report it if both sides exceed 10 px, else cancel.
`start_x` and `start_y` are set together by `on_press`; if no press was
recorded the handler returns without calling the callback. -/
def RegionSelector.on_release (s : RegionSelector) (ex ey : Int) : RegionOutcome :=
  match s.start_x, s.start_y with
  | some sx, some sy =>
      let x1 := min sx ex
      let y1 := min sy ey
      let x2 := max sx ex
      let y2 := max sy ey
      if 10 < x2 - x1 ∧ 10 < y2 - y1 then
        .selected x1 y1 x2 y2 (s.captured_image.crop x1 y1 x2 y2)
      else
        .cancelled
  | _, _ => .ignored

/-- `RegionSelector.on_cancel` (bound to Escape): always reports
`callback(None, None)`, with no guard on the selector state. -/
def RegionSelector.on_cancel (_s : RegionSelector) : RegionOutcome :=
  .cancelled

/-! ## ScreenshotEditor (screenshot_tool.py, class `ScreenshotEditor`)

The editor keeps a base image plus two transparent raster buffers,
`highlight_layer` (committed markup) and `preview_layer` (shape in
progress).  A buffer is represented here by the sequence of PIL draw
calls applied to it since it was last cleared; its pixel content is
`renderLayer` below.  Event coordinates are the image coordinates
produced by `canvas_to_image_coords` (the caller applies that display
scaling).  Text mode opens an external modal dialog and is outside the
drag event flow modelled here. -/

/-- The four keys of `ScreenshotEditor.COLORS`. -/
inductive ColorName
  | yellow
  | green
  | blue
  | red
deriving DecidableEq, Repr

/-- `ScreenshotEditor.COLORS`: semi-transparent highlight RGBA values. -/
def COLORS : ColorName → RGBA
  | .yellow => ⟨255, 255, 0, 100⟩
  | .green => ⟨0, 255, 0, 100⟩
  | .blue => ⟨0, 150, 255, 100⟩
  | .red => ⟨255, 0, 0, 100⟩

/-- `self.draw_mode`: one of `'highlight'`, `'circle'`, `'text'`. -/
inductive DrawMode
  | highlight
  | circle
  | text
deriving DecidableEq, Repr

/-- One PIL `ImageDraw` call recorded against a layer buffer:
`draw.ellipse(bbox, fill=c)`, `draw.ellipse(bbox, outline=c)` or
`draw.line([xa, ya, xb, yb], fill=c, width=w)`. -/
inductive DrawOp
  | ellipseFill (x0 y0 x1 y1 : Int) (c : RGBA)
  | ellipseOutline (x0 y0 x1 y1 : Int) (c : RGBA)
  | lineSeg (xa ya xb yb : Int) (lineWidth : Nat) (c : RGBA)
deriving DecidableEq, Repr

/-- The editor state (`ScreenshotEditor.__init__` fields used by the
drawing flow; toolbar widgets and window geometry are display-only). -/
structure ScreenshotEditor where
  image : Img
  current_color : ColorName
  drawing : Bool
  last_x : Option Int
  last_y : Option Int
  brush_size : Nat
  horizontal_lock : Bool
  lock_y : Option Int
  draw_mode : DrawMode
  center_x : Option Int
  center_y : Option Int
  highlight_layer : List DrawOp
  preview_layer : List DrawOp

/-- `ScreenshotEditor.__init__`: fresh editor on an image (yellow
highlight mode, brush 20, no lock, both layers transparent). -/
def ScreenshotEditor.init (image : Img) : ScreenshotEditor :=
  { image := image
    current_color := .yellow
    drawing := false
    last_x := none
    last_y := none
    brush_size := 20
    horizontal_lock := false
    lock_y := none
    draw_mode := .highlight
    center_x := none
    center_y := none
    highlight_layer := []
    preview_layer := [] }

/-- `ScreenshotEditor.draw_highlight`: stamp a filled brush circle at a
point onto the highlight layer. -/
def ScreenshotEditor.draw_highlight (s : ScreenshotEditor) (x y : Int) : ScreenshotEditor :=
  let color := COLORS s.current_color
  let r : Int := (s.brush_size / 2 : Nat)
  { s with highlight_layer := s.highlight_layer ++
      [.ellipseFill (x - r) (y - r) (x + r) (y + r) color] }

/-- `ScreenshotEditor.draw_line`: a thick segment plus a circle cap at the
new endpoint, appended to the highlight layer. -/
def ScreenshotEditor.draw_line (s : ScreenshotEditor) (x1 y1 x2 y2 : Int) : ScreenshotEditor :=
  let color := COLORS s.current_color
  let r : Int := (s.brush_size / 2 : Nat)
  { s with highlight_layer := s.highlight_layer ++
      [.lineSeg x1 y1 x2 y2 s.brush_size color,
       .ellipseFill (x2 - r) (y2 - r) (x2 + r) (y2 + r) color] }

/-- The multi-pass stroked ellipse drawn by both circle preview and
commit: one outline per half-brush-width offset, bounded by the
rectangle implied by center and current point. -/
def circleOps (cx cy rx ry : Int) (brush : Nat) (color : RGBA) : List DrawOp :=
  if 2 < rx ∨ 2 < ry then
    (List.range (brush / 2)).map fun (o : Nat) =>
      .ellipseOutline (cx - rx - (o : Int)) (cy - ry - (o : Int))
        (cx + rx + (o : Int)) (cy + ry + (o : Int)) color
  else []

/-- `ScreenshotEditor.draw_circle_preview`: rebuild the preview layer from
scratch with the stroked ellipse (only when some radius exceeds 2 px).
`center_x`/`center_y` are set by the press that started the drag; with no
center recorded the Python code would fault, which the drag flow never
reaches. -/
def ScreenshotEditor.draw_circle_preview (s : ScreenshotEditor) (x y : Int) : ScreenshotEditor :=
  match s.center_x, s.center_y with
  | some cx, some cy =>
      let ops := circleOps cx cy (abs (x - cx)) (abs (y - cy)) s.brush_size
        (COLORS s.current_color)
      { s with preview_layer := ops }
  | _, _ => { s with preview_layer := [] }

/-- `ScreenshotEditor.commit_circle`: clear the preview layer and append
the same stroked ellipse permanently to the highlight layer (only when
some radius exceeds 2 px). -/
def ScreenshotEditor.commit_circle (s : ScreenshotEditor) (x y : Int) : ScreenshotEditor :=
  match s.center_x, s.center_y with
  | some cx, some cy =>
      let ops := circleOps cx cy (abs (x - cx)) (abs (y - cy)) s.brush_size
        (COLORS s.current_color)
      { s with preview_layer := [], highlight_layer := s.highlight_layer ++ ops }
  | _, _ => { s with preview_layer := [] }

/-- `ScreenshotEditor.on_press`: text mode opens the external modal text
dialog (no drawing-state change); circle mode records the center point;
highlight mode records the last point, pins `lock_y` when the horizontal
lock is on, and stamps the initial brush circle. -/
def ScreenshotEditor.on_press (s : ScreenshotEditor) (x y : Int) : ScreenshotEditor :=
  if s.draw_mode = .text then s
  else
    let s := { s with drawing := true }
    if s.draw_mode = .circle then
      { s with center_x := some x, center_y := some y }
    else
      let s := { s with last_x := some x, last_y := some y,
                        lock_y := if s.horizontal_lock then some y else s.lock_y }
      s.draw_highlight x y

/-- `ScreenshotEditor.on_drag`: while drawing, circle mode redraws the
preview; otherwise the y coordinate is replaced by `lock_y` when the
horizontal lock is on, a segment is drawn from the last point, and the
last point becomes the (possibly pinned) current point. -/
def ScreenshotEditor.on_drag (s : ScreenshotEditor) (x y : Int) : ScreenshotEditor :=
  if s.drawing then
    if s.draw_mode = .circle then s.draw_circle_preview x y
    else
      let y := match s.horizontal_lock, s.lock_y with
        | true, some ly => ly
        | _, _ => y
      match s.last_x, s.last_y with
      | some lx, some ly => { s.draw_line lx ly x y with last_x := some x, last_y := some y }
      | _, _ => s
  else s

/-- `ScreenshotEditor.on_release`: commit the circle when one was being
dragged, then clear the per-stroke state. -/
def ScreenshotEditor.on_release (s : ScreenshotEditor) (x y : Int) : ScreenshotEditor :=
  let s := if s.drawing ∧ s.draw_mode = .circle then s.commit_circle x y else s
  { s with drawing := false, last_x := none, last_y := none, lock_y := none,
           center_x := none, center_y := none }

/-! Pixel semantics of the layer buffers.  `renderOp` models the external
PIL rasterizer: a draw call replaces the covered pixels of the buffer
with the fill color (no blending happens at draw time on an RGBA
buffer).  Coverage uses the ideal geometry of each primitive; the exact
boundary pixels chosen by the library do not matter to any property
proved here. -/

/-- Membership in the closed ellipse inscribed in bounding box
`(x0, y0, x1, y1)`. -/
def inEllipse (x0 y0 x1 y1 px py : Int) : Bool :=
  let dx := 2 * px - (x0 + x1)
  let dy := 2 * py - (y0 + y1)
  let a := x1 - x0
  let b := y1 - y0
  decide (dx * dx * (b * b) + dy * dy * (a * a) ≤ a * a * (b * b))

/-- Membership in a thick segment: within half the line width of the
segment from `(xa, ya)` to `(xb, yb)` (squared-distance comparison,
cross-multiplied to stay in integers). -/
def onSegment (xa ya xb yb : Int) (lineWidth : Nat) (px py : Int) : Bool :=
  let dx := xb - xa
  let dy := yb - ya
  let ux := px - xa
  let uy := py - ya
  let hw : Int := (lineWidth : Int) / 2
  let len2 := dx * dx + dy * dy
  if len2 = 0 then decide (ux * ux + uy * uy ≤ hw * hw)
  else
    let t := ux * dx + uy * dy
    if t ≤ 0 then decide (ux * ux + uy * uy ≤ hw * hw)
    else if len2 ≤ t then
      decide ((px - xb) * (px - xb) + (py - yb) * (py - yb) ≤ hw * hw)
    else decide ((ux * ux + uy * uy) * len2 - t * t ≤ hw * hw * len2)

/-- Which pixels a recorded draw call covers. -/
def DrawOp.covers : DrawOp → Int → Int → Bool
  | .ellipseFill x0 y0 x1 y1 _, px, py => inEllipse x0 y0 x1 y1 px py
  | .ellipseOutline x0 y0 x1 y1 _, px, py =>
      inEllipse x0 y0 x1 y1 px py && !inEllipse (x0 + 1) (y0 + 1) (x1 - 1) (y1 - 1) px py
  | .lineSeg xa ya xb yb lineWidth _, px, py => onSegment xa ya xb yb lineWidth px py

/-- The fill color of a recorded draw call. -/
def DrawOp.color : DrawOp → RGBA
  | .ellipseFill _ _ _ _ c => c
  | .ellipseOutline _ _ _ _ c => c
  | .lineSeg _ _ _ _ _ c => c

/-- Apply one draw call to a raster buffer. -/
def renderOp (layer : Img) (op : DrawOp) : Img :=
  { layer with px := fun i j => if op.covers i j then op.color else layer.px i j }

/-- A fully transparent buffer, `Image.new('RGBA', size, (0, 0, 0, 0))`. -/
def blankLayer (w h : Nat) : Img :=
  { w := w, h := h, px := fun _ _ => ⟨0, 0, 0, 0⟩ }

/-- Pixel content of a layer buffer: the recorded draw calls applied in
order to a transparent buffer. -/
def renderLayer (w h : Nat) (ops : List DrawOp) : Img :=
  ops.foldl renderOp (blankLayer w h)

/-- Rounding division by 255 used when compositing. -/
def div255r (x : Nat) : Nat := (x + 127) / 255

/-- Porter-Duff source-over on one pixel, modelling the integer
arithmetic of PIL `Image.alpha_composite`. -/
def overPixel (bg fg : RGBA) : RGBA :=
  let oa255 := fg.a * 255 + bg.a * (255 - fg.a)
  if oa255 = 0 then ⟨0, 0, 0, 0⟩
  else
    let mix := fun (cb cf : Nat) =>
      (cf * fg.a * 255 + cb * bg.a * (255 - fg.a) + oa255 / 2) / oa255
    ⟨mix bg.r fg.r, mix bg.g fg.g, mix bg.b fg.b, div255r oa255⟩

/-- `PIL.Image.alpha_composite(bg, fg)` for equal-size images
(the editor layers are created at the image size). -/
def alphaCompositeImg (bg fg : Img) : Img :=
  { w := bg.w, h := bg.h, px := fun i j => overPixel (bg.px i j) (fg.px i j) }

/-- `convert('RGB')`: drop the alpha channel. -/
def Img.toRGB (img : Img) : Img :=
  { img with px := fun i j => let p := img.px i j; ⟨p.r, p.g, p.b, 255⟩ }

/-- `ScreenshotEditor.save`: composite the base image with the rendered
highlight layer only, flattened to RGB.  The preview layer is not part
of the composite. -/
def ScreenshotEditor.save (s : ScreenshotEditor) : Img :=
  (alphaCompositeImg s.image (renderLayer s.image.w s.image.h s.highlight_layer)).toRGB

/-- `ScreenshotEditor.cancel`: report `callback(None)`. -/
def ScreenshotEditor.cancel (_s : ScreenshotEditor) : Option Img :=
  none

/-- A recorded draw call whose stroke y coordinates are pinned to `y0`:
line segments must start and end at `y0`; other primitives are not
stroke segments. -/
def strokeSegPinned (y0 : Int) : DrawOp → Prop
  | .lineSeg _ ya _ yb _ _ => ya = y0 ∧ yb = y0
  | _ => True

instance (y0 : Int) (op : DrawOp) : Decidable (strokeSegPinned y0 op) := by
  cases op <;> simp only [strokeSegPinned] <;> infer_instance

/-! ## Persistence: `ScreenshotTool.save_screenshot` and
`ScreenshotTool.copy_to_clipboard`

The saved-files store is the save directory: a list of
`(subfolder, filename, image)` entries, where `none` is the root
directory.  `PIL.Image.save` overwrites an existing path silently. -/

/-- A `datetime.now()` value at second resolution. -/
structure Timestamp where
  year : Nat
  month : Nat
  day : Nat
  hour : Nat
  minute : Nat
  second : Nat
deriving DecidableEq, Repr

/-- Two-digit zero padding, as `strftime` applies to each field. -/
def pad2 (n : Nat) : String :=
  if n < 10 then "0" ++ toString n else toString n

/-- Four-digit zero padding for the year field. -/
def pad4 (n : Nat) : String :=
  if n < 10 then "000" ++ toString n
  else if n < 100 then "00" ++ toString n
  else if n < 1000 then "0" ++ toString n
  else toString n

/-- `datetime.now().strftime("%Y%m%d_%H%M%S")`. -/
def formatTimestamp (t : Timestamp) : String :=
  pad4 t.year ++ pad2 t.month ++ pad2 t.day ++ "_" ++
    pad2 t.hour ++ pad2 t.minute ++ pad2 t.second

/-- `f"screenshot_{timestamp}.png"`. -/
def screenshotFilename (t : Timestamp) : String :=
  "screenshot_" ++ formatTimestamp t ++ ".png"

/-- Write an image at `(folder, name)`, silently overwriting an existing
entry with that exact path (the behavior of `img.save`). -/
def writePath : List (Option String × String × Img) → Option String → String → Img →
    List (Option String × String × Img)
  | [], folder, name, img => [(folder, name, img)]
  | (f, n, i) :: rest, folder, name, img =>
      if f = folder ∧ n = name then (folder, name, img) :: rest
      else (f, n, i) :: writePath rest folder name img

/-- Read the image stored at `(folder, name)`. -/
def lookupPath : List (Option String × String × Img) → Option String → String → Option Img
  | [], _, _ => none
  | (f, n, i) :: rest, folder, name =>
      if f = folder ∧ n = name then some i else lookupPath rest folder name

/-- One push-to-target rule, an entry of `self.push_targets`
(a dict persisted in the JSON config). -/
structure PushTarget where
  name : String
  title_pattern : String
  click_x : Option Int
  click_y : Option Int
  offset_type : Option String
  enabled : Bool
deriving DecidableEq, Repr

/-- The `ScreenshotTool` state touched by saving: the save directory
contents, the selected gallery folder, the clipboard payload, the session
counter, the status line and the auto-send settings. -/
structure SaveState where
  files : List (Option String × String × Img)
  current_folder : Option String
  clipboard : Option Img
  screenshot_count : Nat
  status : String
  auto_send_enabled : Bool
  auto_send_target : String
  push_targets : List PushTarget
  pendingPaste : Option PushTarget

/-- The win32 clipboard write (`OpenClipboard` / `SetClipboardData` with
the DIB payload derived from the image).  `clipFail` says whether the OS
call raises; on success the clipboard holds the image. -/
def clipboard_set (clipFail : Bool) (img : Img) (_clip : Option Img) :
    Except String (Option Img) :=
  if clipFail then .error "clipboard error" else .ok (some img)

/-- `ScreenshotTool.copy_to_clipboard`: the clipboard write wrapped in
try/except — a failure is printed and swallowed (with a best-effort
`CloseClipboard`), leaving the prior clipboard state. -/
def copy_to_clipboard (clipFail : Bool) (img : Img) (clip : Option Img) : Option Img :=
  match clipboard_set clipFail img clip with
  | .ok c => c
  | .error _ => clip

/-- The status line written by a successful save:
`f"Saved{folder_info} & copied: {filename}"`. -/
def savedStatus (folder : Option String) (filename : String) : String :=
  let folderInfo := match folder with
    | some f => " [" ++ f ++ "]"
    | none => ""
  "Saved" ++ folderInfo ++ " & copied: " ++ filename

/-- `ScreenshotTool.save_screenshot`: name the file from the current
second-resolution timestamp, write the PNG (overwriting any same-named
file in the chosen folder), copy to the clipboard, bump the session
counter, report success in the status line, and schedule the auto-send
paste when enabled.  The result is `Except` to record that no exception
escapes this function.  (Gallery refresh and the flash notification are
display-side and modelled in their own sections.) -/
def save_screenshot (st : SaveState) (t : Timestamp) (img : Img) (clipFail : Bool) :
    Except String SaveState := do
  let filename := screenshotFilename t
  let files := writePath st.files st.current_folder filename img
  let clip := copy_to_clipboard clipFail img st.clipboard
  let count := st.screenshot_count + 1
  let status := savedStatus st.current_folder filename
  let pendingPaste :=
    if st.auto_send_enabled then
      st.push_targets.find? (fun tg => tg.name == st.auto_send_target)
    else none
  pure { st with files := files, clipboard := clip, screenshot_count := count,
                 status := status, pendingPaste := pendingPaste }

/-! ## Delivery: `ScreenshotTool.paste_to_target` -/

/-- A top-level window as seen through `win32gui.EnumWindows`, in
enumeration order. -/
structure OSWindow where
  hwnd : Nat
  title : String
  visible : Bool
  rect : Int × Int × Int × Int
deriving DecidableEq, Repr

/-- Leading match of a character list. -/
def startsWithChars : List Char → List Char → Bool
  | _, [] => true
  | [], _ :: _ => false
  | c :: hs, d :: ns => c == d && startsWithChars hs ns

/-- Substring containment over character lists (the Python `in` test). -/
def containsSubChars : List Char → List Char → Bool
  | [], needle => needle.isEmpty
  | c :: hs, needle => startsWithChars (c :: hs) needle || containsSubChars hs needle

/-- `pattern in title` on strings. -/
def containsSub (hay needle : String) : Bool :=
  containsSubChars hay.toList needle.toList

/-- The enumeration callback filter: a visible window whose lowercased
title contains the lowercased configured pattern. -/
def windowMatches (pattern : String) (w : OSWindow) : Bool :=
  w.visible && containsSub w.title.toLower pattern.toLower

/-- What `paste_to_target` did: its return value, the status line it set,
the window handle it pasted into (if any) and the synthetic click it
issued (if any). -/
structure PasteResult where
  success : Bool
  status : String
  pastedTo : Option Nat
  clicked : Option (Int × Int)
deriving DecidableEq, Repr

/-- `ScreenshotTool.paste_to_target`: enumerate windows, keep the visible
ones whose title contains the configured substring, and take the first.
No match is a soft failure: a status message and `False`, with no retry.
On a match, the window is focused (OS side effects), an optional
absolute or bottom-center-relative click is issued, then Ctrl+V is sent
and success is reported.  Window moves, focus calls and sleeps have no
effect on this state. -/
def paste_to_target (tg : PushTarget) (windows : List OSWindow) : PasteResult :=
  let results := windows.filter (windowMatches tg.title_pattern)
  match results with
  | [] =>
      { success := false, status := "\x27" ++ tg.name ++ "\x27 window not found",
        pastedTo := none, clicked := none }
  | w :: _ =>
      let wx := w.rect.1
      let wy := w.rect.2.1
      let wr := w.rect.2.2.1
      let wb := w.rect.2.2.2
      let clicked := match tg.click_x, tg.click_y with
        | some cx, some cy =>
            let winWidth := wr - wx
            let winHeight := wb - wy
            if tg.offset_type = some "relative_bottom_center" then
              some (wx + winWidth / 2 + cx, wy + winHeight + cy)
            else
              some (wx + cx, wy + cy)
        | _, _ => none
      { success := true, status := "Pasted to " ++ tg.name ++ "!",
        pastedTo := some w.hwnd, clicked := clicked }

/-! ## Disk quota: `ScreenshotTool.update_disk_usage`,
`prompt_cleanup`, `cleanup_old_screenshots`

The on-disk screenshot files are summarized by size and age in days.
`_cleanup_prompted` is the once-per-session latch; a scheduled
`root.after(500, prompt_cleanup)` callback is the pending prompt, and
the count of `askyesno` dialogs shown is recorded.  The usage test
`total_bytes / limit_bytes * 100 >= 90` is taken in exact integer
arithmetic (`0` when the limit is `0`, as in the code). -/

/-- One `screenshot_*.png` file: its byte size and its age in days
relative to now (fractional parts do not affect the properties proved
here; a file is deleted when it is strictly older than the threshold). -/
structure DiskFile where
  size : Nat
  ageDays : Nat
deriving DecidableEq, Repr

/-- The disk-quota state of a session. -/
structure DiskState where
  files : List DiskFile
  cleanupPrompted : Bool
  pendingPrompt : Bool
  promptCount : Nat
deriving DecidableEq, Repr

/-- `sum(f.stat().st_size for f in self.save_dir.glob("screenshot_*.png"))`. -/
def totalBytes (files : List DiskFile) : Nat :=
  (files.map (·.size)).sum

/-- `usage_percent >= 90` where
`usage_percent = total_bytes / limit_bytes * 100` (and `0` when the
limit is `0`). -/
def usageAtLeast90 (limit_mb : Nat) (files : List DiskFile) : Bool :=
  let limit_bytes := limit_mb * 1024 * 1024
  if limit_bytes = 0 then false
  else decide (9 * limit_bytes ≤ totalBytes files * 10)

/-- `ScreenshotTool.update_disk_usage`: recompute usage (the size label
and color are display-only) and, at 90% or more with the latch clear,
set the latch and schedule the cleanup prompt. -/
def update_disk_usage (limit_mb : Nat) (show_warning : Bool) (s : DiskState) : DiskState :=
  if show_warning && usageAtLeast90 limit_mb s.files && !s.cleanupPrompted then
    { s with cleanupPrompted := true, pendingPrompt := true }
  else s

/-- `ScreenshotTool.refresh_gallery` as it affects the disk-quota state:
it calls `update_disk_usage()` (warnings on); the thumbnail rebuild does
not touch this state. -/
def refresh_gallery (limit_mb : Nat) (s : DiskState) : DiskState :=
  update_disk_usage limit_mb true s

/-- `ScreenshotTool.cleanup_old_screenshots`: delete files strictly older
than the age threshold; when at least one file was deleted, show the
summary dialog, clear the latch (allowing future prompts) and refresh
the gallery (which re-runs the usage check). -/
def cleanup_old_screenshots (limit_mb days : Nat) (s : DiskState) : DiskState :=
  let deleted := s.files.filter (fun f => decide (days < f.ageDays))
  let kept := s.files.filter (fun f => !decide (days < f.ageDays))
  if 0 < deleted.length then
    refresh_gallery limit_mb { s with files := kept, cleanupPrompted := false }
  else s

/-- `ScreenshotTool.prompt_cleanup`: show the `askyesno` dialog; on Yes,
run the cleanup. -/
def prompt_cleanup (limit_mb days : Nat) (accept : Bool) (s : DiskState) : DiskState :=
  let s := { s with promptCount := s.promptCount + 1 }
  if accept then cleanup_old_screenshots limit_mb days s else s

/-- The events of the single-threaded UI loop that touch the disk-quota
state: a gallery refresh, and the arrival of the deferred cleanup-prompt
callback together with the answer the user gives it. -/
inductive GalleryEvent
  | refresh
  | promptAnswer (accept : Bool)
deriving DecidableEq, Repr

/-- Run one UI-loop event.  The prompt callback only runs if one is
actually scheduled. -/
def stepEvent (limit_mb days : Nat) (s : DiskState) : GalleryEvent → DiskState
  | .refresh => refresh_gallery limit_mb s
  | .promptAnswer a =>
      if s.pendingPrompt then
        prompt_cleanup limit_mb days a { s with pendingPrompt := false }
      else s

/-- Run a session: a sequence of UI-loop events from an initial state. -/
def runSession (limit_mb days : Nat) (s : DiskState) (evs : List GalleryEvent) : DiskState :=
  evs.foldl (stepEvent limit_mb days) s

/-- A session that starts with the latch clear, no scheduled prompt and
no dialog shown yet, over a fixed set of files. -/
def initialDisk (files : List DiskFile) : DiskState :=
  { files := files, cleanupPrompted := false, pendingPrompt := false, promptCount := 0 }

/-- The invariant that keeps the cleanup prompt single-shot while no
prompt is accepted: a scheduled prompt implies the latch is set, and
once the dialog has been shown the latch is set with nothing scheduled. -/
def promptInv (s : DiskState) : Prop :=
  (s.pendingPrompt = true → s.cleanupPrompted = true) ∧
  (s.promptCount = 0 ∨
    (s.promptCount = 1 ∧ s.cleanupPrompted = true ∧ s.pendingPrompt = false))

/-! ## Hotkey capture flows: the in-flight guard
(`ScreenshotTool._capture_in_progress`)

The guard-relevant state of `ScreenshotTool`, with the hotkey entry
points and the countdown / selector completion callbacks.  `root.after`
defers a callback on the same single-threaded loop; here each handler is
composed directly in the order the loop runs them, and the points where
control waits for the user (countdown ticking, selector overlay shown)
end the handler, the continuation arriving as the next call.  Handing an
image to the editor or to `save_screenshot` is recorded in
`editorOpenedOn` / `savedDirect`; those flows are modelled in their own
sections. -/

structure ToolState where
  capture_in_progress : Bool
  status : String
  iconified : Bool
  delay : Nat
  silent_capture : Bool
  edit_before_save : Bool
  editorOpenedOn : Option Img
  savedDirect : Option Img

/-- `f"Countdown: {delay} seconds - set up your screen!"`. -/
def countdownStatus (d : Nat) : String :=
  "Countdown: " ++ toString d ++ " seconds - set up your screen!"

/-- `ScreenshotTool.start_region_capture`: with a positive delay, start
the countdown (completion arrives at `_on_region_delay_complete`);
otherwise iconify and show the region selector (result arrives at
`on_region_selected`). -/
def start_region_capture (s : ToolState) : ToolState :=
  if 0 < s.delay then
    { s with status := countdownStatus s.delay, iconified := true }
  else
    { s with status := "Select a region...", iconified := true }

/-- `ScreenshotTool.start_region_capture_threadsafe` (the Ctrl+Shift+R
hotkey): ignore the event while a capture is in flight, else set the
guard and defer `start_region_capture`. -/
def start_region_capture_threadsafe (s : ToolState) : ToolState :=
  if s.capture_in_progress then s
  else start_region_capture { s with capture_in_progress := true }

/-- `ScreenshotTool._on_region_delay_complete`: proceed shows the region
selector; cancel restores the main window and reports cancellation.
Neither branch touches the in-flight guard. -/
def _on_region_delay_complete (s : ToolState) (proceed : Bool) : ToolState :=
  if proceed then s
  else { s with iconified := false, status := "Capture cancelled" }

/-- `ScreenshotTool.on_region_selected`: clear the guard, restore the
window unless capturing silently, then either report cancellation, open
the editor, or save directly. -/
def on_region_selected (s : ToolState) (result : Option ((Int × Int × Int × Int) × Img)) :
    ToolState :=
  let s := { s with capture_in_progress := false }
  let s := if !s.silent_capture then { s with iconified := false } else s
  match result with
  | none =>
      let s := { s with status := "Region capture cancelled" }
      if !s.silent_capture then { s with iconified := false } else s
  | some (_, img) =>
      if s.edit_before_save then
        { s with status := "Edit screenshot (add highlights, then Save or Cancel)",
                 iconified := false, editorOpenedOn := some img }
      else { s with savedDirect := some img }

/-- `ScreenshotTool.start_window_capture`: same shape as the region flow
with the window-selector status line. -/
def start_window_capture (s : ToolState) : ToolState :=
  if 0 < s.delay then
    { s with status := countdownStatus s.delay, iconified := true }
  else
    { s with status := "Click on a window to capture...", iconified := true }

/-- `ScreenshotTool.start_window_capture_threadsafe` (the Ctrl+Shift+W
hotkey). -/
def start_window_capture_threadsafe (s : ToolState) : ToolState :=
  if s.capture_in_progress then s
  else start_window_capture { s with capture_in_progress := true }

/-- `ScreenshotTool._on_window_delay_complete`: proceed shows the window
selector; cancel restores the main window and reports cancellation.
Neither branch touches the in-flight guard. -/
def _on_window_delay_complete (s : ToolState) (proceed : Bool) : ToolState :=
  if proceed then s
  else { s with iconified := false, status := "Capture cancelled" }

/-- `ScreenshotTool.on_window_selected`: clear the guard, then either
report cancellation or continue into `capture_window`.  The grabbed
window image is a parameter (the mss grab). -/
def on_window_selected (s : ToolState) (hwnd : Option Nat) (grabbed : Img) : ToolState :=
  let s := { s with capture_in_progress := false }
  match hwnd with
  | none =>
      let s := { s with status := "Window capture cancelled" }
      if !s.silent_capture then { s with iconified := false } else s
  | some _ =>
      let s := if !s.silent_capture || s.edit_before_save then { s with iconified := false }
        else s
      let s := { s with status := "Capturing window..." }
      if s.edit_before_save then
        { s with status := "Edit screenshot (add highlights, then Save or Cancel)",
                 editorOpenedOn := some grabbed }
      else { s with savedDirect := some grabbed }

/-- `ScreenshotTool.capture_fullscreen` (the Ctrl+Shift+S flow): with a
positive delay, start the countdown; otherwise iconify and defer the
actual grab. -/
def capture_fullscreen (s : ToolState) : ToolState :=
  if 0 < s.delay then
    { s with status := countdownStatus s.delay, iconified := true }
  else { s with iconified := true }

/-- `ScreenshotTool.capture_fullscreen_threadsafe`. -/
def capture_fullscreen_threadsafe (s : ToolState) : ToolState :=
  if s.capture_in_progress then s
  else capture_fullscreen { s with capture_in_progress := true }

/-- `ScreenshotTool._do_fullscreen_capture`: clear the guard first, grab
the screen, then open the editor or save directly. -/
def _do_fullscreen_capture (s : ToolState) (grabbed : Img) : ToolState :=
  let s := { s with capture_in_progress := false, status := "Capturing..." }
  if s.edit_before_save then
    { s with iconified := false,
             status := "Edit screenshot (add highlights, then Save or Cancel)",
             editorOpenedOn := some grabbed }
  else
    let s := if !s.silent_capture then { s with iconified := false } else s
    { s with savedDirect := some grabbed }

/-- `ScreenshotTool._on_fullscreen_delay_complete`: proceed runs the
grab; cancel clears the guard, restores the window and reports
cancellation.  This is the only delay-cancel callback that clears the
guard. -/
def _on_fullscreen_delay_complete (s : ToolState) (proceed : Bool) (grabbed : Img) :
    ToolState :=
  if proceed then _do_fullscreen_capture s grabbed
  else { s with capture_in_progress := false, iconified := false,
                status := "Capture cancelled" }

/-- A freshly started tool session with a 5-second capture delay
configured. -/
def initialTool : ToolState :=
  { capture_in_progress := false, status := "Ready", iconified := false,
    delay := 5, silent_capture := false, edit_before_save := true,
    editorOpenedOn := none, savedDirect := none }

/-- A concrete editor state in the middle of a circle drag, used by
witnesses. -/
def previewEditor : ScreenshotEditor :=
  { ScreenshotEditor.init testImg with
      draw_mode := DrawMode.circle
      drawing := true
      center_x := some 3
      center_y := some 4 }

end ScreenshotToolSpec

namespace ScreenshotToolSpec

/-- Claim C3: in the region picker, a pointer-drag release returns an
axis-aligned rectangle exactly when the selection width and height both
exceed 10 px; any selection with width or height at most 10 px reports
cancellation; and Escape reports cancellation unconditionally. -/
theorem region_release_threshold (img : Img) (sx sy ex ey : Int) :
    ((10 < max sx ex - min sx ex ∧ 10 < max sy ey - min sy ey) →
      ((RegionSelector.mk none none img).on_press sx sy).on_release ex ey
        = RegionOutcome.selected (min sx ex) (min sy ey) (max sx ex) (max sy ey)
            (img.crop (min sx ex) (min sy ey) (max sx ex) (max sy ey))) ∧
    ((max sx ex - min sx ex ≤ 10 ∨ max sy ey - min sy ey ≤ 10) →
      ((RegionSelector.mk none none img).on_press sx sy).on_release ex ey
        = RegionOutcome.cancelled) ∧
    RegionSelector.on_cancel ((RegionSelector.mk none none img).on_press sx sy)
      = RegionOutcome.cancelled := by
  refine ⟨fun h => ?_, fun h => ?_, rfl⟩
  · simp only [RegionSelector.on_press, RegionSelector.on_release]
    rw [if_pos h]
  · simp only [RegionSelector.on_press, RegionSelector.on_release]
    rw [if_neg]
    omega

/-- Witness for C3: a concrete 20 × 30 drag is reported as selected. -/
theorem region_release_threshold_witness :
    ((RegionSelector.mk none none testImg).on_press 0 0).on_release 20 30
      = RegionOutcome.selected (min 0 20) (min 0 30) (max 0 20) (max 0 30)
          (testImg.crop (min 0 20) (min 0 30) (max 0 20) (max 0 30)) :=
  (region_release_threshold testImg 0 0 20 30).1 (by decide)

/-- Claim C10: whatever the drag direction, any rectangle the region picker
reports is the min/max normalization of press and release points, so its
coordinates are ordered and the crop of the pre-captured image is
well-formed (positive width and height). -/
theorem region_rect_normalized (img : Img) (sx sy ex ey x1 y1 x2 y2 : Int) (c : Img) :
    ((RegionSelector.mk none none img).on_press sx sy).on_release ex ey
        = RegionOutcome.selected x1 y1 x2 y2 c →
      x1 = min sx ex ∧ y1 = min sy ey ∧ x2 = max sx ex ∧ y2 = max sy ey ∧
      x1 ≤ x2 ∧ y1 ≤ y2 ∧ c = img.crop x1 y1 x2 y2 ∧ 0 < c.w ∧ 0 < c.h := by
  simp only [RegionSelector.on_press, RegionSelector.on_release]
  split
  · rename_i hgt
    intro h
    obtain ⟨h1, h2, h3, h4, h5⟩ := RegionOutcome.selected.inj h
    subst h1; subst h2; subst h3; subst h4; subst h5
    refine ⟨rfl, rfl, rfl, rfl, min_le_max, min_le_max, rfl, ?_, ?_⟩ <;>
      · simp only [Img.crop]
        omega
  · intro h
    exact absurd h (by simp)

/-- Witness for C10: a concrete up-left drag from (30, 2) to (1, 40)
is reported normalized with ordered coordinates and a well-formed crop. -/
theorem region_rect_normalized_witness :
    (1 : Int) = min 30 1 ∧ (2 : Int) = min 2 40 ∧ (30 : Int) = max 30 1 ∧
      (40 : Int) = max 2 40 ∧ (1 : Int) ≤ 30 ∧ (2 : Int) ≤ 40 ∧
      testImg.crop 1 2 30 40 = testImg.crop 1 2 30 40 ∧
      0 < (testImg.crop 1 2 30 40).w ∧ 0 < (testImg.crop 1 2 30 40).h :=
  region_rect_normalized testImg 30 2 1 40 1 2 30 40 (testImg.crop 1 2 30 40) rfl

/-- Claim C2 counterexample: in circle mode, a drag from center (0, 0)
released at (10, 1) has vertical radius 1 ≤ 2, yet the commit draws the
stroked ellipse into the highlight layer (10 outline passes at the
default brush size 20).  One radius at most 2 px therefore does not
suffice for the shape to be discarded. -/
theorem commit_circle_small_radius_drawn :
    abs ((1 : Int) - 0) ≤ 2 ∧
    ((({ ScreenshotEditor.init testImg with
          draw_mode := DrawMode.circle }).on_press 0 0).on_release 10 1).highlight_layer.length
      = 10 :=
  ⟨by decide, rfl⟩

/-- Claim C2 (amended): in circle mode, a committed shape is discarded
(nothing is drawn into the highlight layer) exactly when BOTH its
horizontal and vertical radii are at most 2 px; equivalently it is drawn
whenever either radius exceeds 2 px.  (The brush size is at least 5, the
minimum of the size slider.) -/
theorem commit_circle_discard_iff (s : ScreenshotEditor) (cx cy x y : Int)
    (hb : 5 ≤ s.brush_size) (hcx : s.center_x = some cx) (hcy : s.center_y = some cy) :
    (s.commit_circle x y).highlight_layer = s.highlight_layer ↔
      (abs (x - cx) ≤ 2 ∧ abs (y - cy) ≤ 2) := by
  rcases s with ⟨img, cc, dr, olx, oly, bs, hlock, olky, dm, ocx, ocy, hlay, play⟩
  dsimp only at hb hcx hcy ⊢
  subst hcx; subst hcy
  simp only [ScreenshotEditor.commit_circle, circleOps]
  by_cases h : 2 < abs (x - cx) ∨ 2 < abs (y - cy)
  · rw [if_pos h]
    constructor
    · intro heq
      have hlen := congrArg List.length heq
      simp only [List.length_append, List.length_map, List.length_range] at hlen
      omega
    · rintro ⟨h1, h2⟩
      rcases h with h | h
      · exact absurd h (not_lt.mpr h1)
      · exact absurd h (not_lt.mpr h2)
  · rw [if_neg h]
    push_neg at h
    simp only [List.append_nil, true_iff, iff_true]
    exact h

/-- Witness for the amended C2: a concrete commit with both radii at
most 2 (center (0, 0), release (1, 2), brush 20) leaves the highlight
layer unchanged. -/
theorem commit_circle_discard_iff_witness :
    (({ ScreenshotEditor.init testImg with
          draw_mode := DrawMode.circle
          center_x := some 0
          center_y := some 0 }).commit_circle 1 2).highlight_layer
        = ({ ScreenshotEditor.init testImg with
          draw_mode := DrawMode.circle
          center_x := some 0
          center_y := some 0 }).highlight_layer ↔
      (abs ((1 : Int) - 0) ≤ 2 ∧ abs ((2 : Int) - 0) ≤ 2) :=
  commit_circle_discard_iff _ 0 0 1 2 (by decide) rfl rfl

/-- The stroke-pinning invariant carried along a locked highlight drag:
folding further drag points keeps every highlight-layer entry either
pre-existing or pinned to the pointer-down y. -/
theorem lock_drag_fold_pinned (y0 : Int) (base : List DrawOp) (pts : List (Int × Int)) :
    ∀ st : ScreenshotEditor, st.draw_mode = DrawMode.highlight →
      st.horizontal_lock = true → st.drawing = true → st.lock_y = some y0 →
      st.last_y = some y0 → (∃ lx, st.last_x = some lx) →
      (∀ op ∈ st.highlight_layer, op ∈ base ∨ strokeSegPinned y0 op) →
      ∀ op ∈ (pts.foldl (fun a q => a.on_drag q.1 q.2) st).highlight_layer,
        op ∈ base ∨ strokeSegPinned y0 op := by
  induction pts with
  | nil =>
      intro st _ _ _ _ _ _ hmem
      simpa using hmem
  | cons p rest ih =>
      rintro ⟨img, cc, dr, olx, oly, bs, hlock, olky, dm, ocx, ocy, hlay, play⟩
        hm hl hd hky hly ⟨lx, hlx⟩ hmem
      dsimp only at hm hl hd hky hly hlx hmem
      subst hm; subst hl; subst hd; subst hky; subst hly; subst hlx
      simp only [List.foldl_cons]
      apply ih _ rfl rfl rfl rfl rfl ⟨p.1, rfl⟩
      intro op hop
      have hred :
          (ScreenshotEditor.on_drag
              ⟨img, cc, true, some lx, some y0, bs, true, some y0, DrawMode.highlight,
               ocx, ocy, hlay, play⟩ p.1 p.2).highlight_layer
            = hlay ++
              [DrawOp.lineSeg lx y0 p.1 y0 bs (COLORS cc),
               DrawOp.ellipseFill (p.1 - ((bs / 2 : Nat) : Int)) (y0 - ((bs / 2 : Nat) : Int))
                 (p.1 + ((bs / 2 : Nat) : Int)) (y0 + ((bs / 2 : Nat) : Int)) (COLORS cc)] := rfl
      rw [hred] at hop
      rcases List.mem_append.mp hop with hin | hnew
      · exact hmem op hin
      · simp only [List.mem_cons, List.not_mem_nil, or_false] at hnew
        rcases hnew with h1 | h1 <;> subst h1
        · exact Or.inr ⟨rfl, rfl⟩
        · exact Or.inr trivial

/-- Claim C8: with horizontal lock on in highlight mode, every stroke
segment the drag records in the highlight layer has both endpoint y
coordinates equal to the y captured at pointer-down, whatever the
actual pointer y coordinates along the drag. -/
theorem horizontal_lock_pins_y (s : ScreenshotEditor) (x0 y0 : Int) (pts : List (Int × Int))
    (hm : s.draw_mode = DrawMode.highlight) (hl : s.horizontal_lock = true) :
    ∀ op ∈ (pts.foldl (fun a q => a.on_drag q.1 q.2) (s.on_press x0 y0)).highlight_layer,
      op ∈ s.highlight_layer ∨ strokeSegPinned y0 op := by
  rcases s with ⟨img, cc, dr, olx, oly, bs, hlock, olky, dm, ocx, ocy, hlay, play⟩
  dsimp only at hm hl ⊢
  subst hm; subst hl
  apply lock_drag_fold_pinned y0 hlay pts _ rfl rfl rfl rfl rfl ⟨x0, rfl⟩
  intro op hop
  have hred :
      (ScreenshotEditor.on_press
          ⟨img, cc, dr, olx, oly, bs, true, olky, DrawMode.highlight,
           ocx, ocy, hlay, play⟩ x0 y0).highlight_layer
        = hlay ++
          [DrawOp.ellipseFill (x0 - ((bs / 2 : Nat) : Int)) (y0 - ((bs / 2 : Nat) : Int))
             (x0 + ((bs / 2 : Nat) : Int)) (y0 + ((bs / 2 : Nat) : Int)) (COLORS cc)] := rfl
  rw [hred] at hop
  rcases List.mem_append.mp hop with hin | hnew
  · exact Or.inl hin
  · simp only [List.mem_cons, List.not_mem_nil, or_false] at hnew
    subst hnew
    exact Or.inr trivial

/-- Witness for C8: in the concrete locked drag pressed at (5, 7) and
dragged through (9, 20), the recorded segment lies at y = 7 on both
ends. -/
theorem horizontal_lock_pins_y_witness :
    DrawOp.lineSeg 5 7 9 7 20 (COLORS ColorName.yellow)
        ∈ ({ ScreenshotEditor.init testImg with
              horizontal_lock := true } : ScreenshotEditor).highlight_layer ∨
      strokeSegPinned 7 (DrawOp.lineSeg 5 7 9 7 20 (COLORS ColorName.yellow)) :=
  horizontal_lock_pins_y
    { ScreenshotEditor.init testImg with horizontal_lock := true } 5 7 [(9, 20)] rfl rfl
    (DrawOp.lineSeg 5 7 9 7 20 (COLORS ColorName.yellow)) (by decide)

/-- Claim C9: the editor save composites only the base image with the
committed highlight layer: the saved output does not depend on the
preview layer at all, and a circle-mode drag (which only rebuilds the
preview of the uncommitted shape) never changes what save produces. -/
theorem editor_save_ignores_preview (s : ScreenshotEditor) (p : List DrawOp) (x y : Int)
    (hd : s.drawing = true) (hm : s.draw_mode = DrawMode.circle) :
    ScreenshotEditor.save { s with preview_layer := p } = s.save ∧
    (s.on_drag x y).save = s.save := by
  refine ⟨rfl, ?_⟩
  rcases s with ⟨img, cc, dr, olx, oly, bs, hlock, olky, dm, ocx, ocy, hlay, play⟩
  dsimp only at hd hm
  subst hd; subst hm
  cases ocx <;> cases ocy <;> rfl

/-- Witness for C9: a concrete mid-drag circle editor state saves the
same image with an arbitrary preview layer and after a further drag. -/
theorem editor_save_ignores_preview_witness :
    ScreenshotEditor.save
        { previewEditor with
          preview_layer := [DrawOp.ellipseFill 0 0 5 5 (COLORS ColorName.red)] }
      = previewEditor.save ∧
    (previewEditor.on_drag 9 5).save = previewEditor.save :=
  editor_save_ignores_preview previewEditor
    [DrawOp.ellipseFill 0 0 5 5 (COLORS ColorName.red)] 9 5 rfl rfl

/-- Reading back a path just written returns the image just written. -/
theorem lookupPath_writePath (l : List (Option String × String × Img)) (folder : Option String)
    (name : String) (i : Img) :
    lookupPath (writePath l folder name i) folder name = some i := by
  induction l with
  | nil => simp [writePath, lookupPath]
  | cons e rest ih =>
      obtain ⟨ef, en, ei⟩ := e
      by_cases h : ef = folder ∧ en = name
      · simp [writePath, lookupPath, h]
      · simp only [writePath, if_neg h]
        simp only [lookupPath, if_neg h]
        exact ih

/-- Writing to a path that already exists does not grow the store. -/
theorem length_writePath_of_lookup (l : List (Option String × String × Img))
    (folder : Option String) (name : String) (i j : Img)
    (hl : lookupPath l folder name = some j) :
    (writePath l folder name i).length = l.length := by
  induction l with
  | nil => simp [lookupPath] at hl
  | cons e rest ih =>
      obtain ⟨ef, en, ei⟩ := e
      by_cases h : ef = folder ∧ en = name
      · simp [writePath, h]
      · simp only [lookupPath, if_neg h] at hl
        simp only [writePath, if_neg h, List.length_cons, ih hl]

/-- Claim C5: every save writes `screenshot_<YYYYMMDD_HHMMSS>.png`, named
from the current second-resolution timestamp, and two saves that fall in
the same second into the same folder are not disambiguated: the second
save stores at the same path, overwriting the first image without adding
a new directory entry. -/
theorem same_second_save_overwrites (st : SaveState) (t : Timestamp) (i1 i2 : Img)
    (f1 f2 : Bool) :
    ∃ st1 st2, save_screenshot st t i1 f1 = Except.ok st1 ∧
      save_screenshot st1 t i2 f2 = Except.ok st2 ∧
      screenshotFilename t = "screenshot_" ++ formatTimestamp t ++ ".png" ∧
      st1.current_folder = st.current_folder ∧
      lookupPath st1.files st.current_folder (screenshotFilename t) = some i1 ∧
      lookupPath st2.files st.current_folder (screenshotFilename t) = some i2 ∧
      st2.files.length = st1.files.length := by
  refine ⟨_, _, rfl, rfl, rfl, rfl, lookupPath_writePath _ _ _ _,
    lookupPath_writePath _ _ _ _, ?_⟩
  exact length_writePath_of_lookup _ _ _ _ _ (lookupPath_writePath _ _ _ _)

/-- Claim C6: a failure while copying the saved image to the clipboard is
swallowed: the save still returns normally (no exception propagates out
of `save_screenshot`), the PNG is written, the session counter still
increments, and the reported status is the same success message as on a
clipboard success. -/
theorem clipboard_failure_swallowed (st : SaveState) (t : Timestamp) (img : Img) :
    ∃ stFail stOk, save_screenshot st t img true = Except.ok stFail ∧
      save_screenshot st t img false = Except.ok stOk ∧
      lookupPath stFail.files st.current_folder (screenshotFilename t) = some img ∧
      stFail.screenshot_count = st.screenshot_count + 1 ∧
      stFail.files = stOk.files ∧ stFail.status = stOk.status ∧
      stFail.status = savedStatus st.current_folder (screenshotFilename t) :=
  ⟨_, _, rfl, rfl, lookupPath_writePath _ _ _ _, rfl, rfl, rfl, rfl⟩

/-- The first element kept by a filter is the first element satisfying
the predicate. -/
theorem filter_head?_eq_find? {α : Type} (p : α → Bool) (l : List α) :
    (l.filter p).head? = l.find? p := by
  induction l with
  | nil => rfl
  | cons a rest ih =>
      by_cases h : p a
      · simp [List.filter_cons, List.find?_cons, h]
      · simp only [Bool.not_eq_true] at h
        simp [List.filter_cons, List.find?_cons, h, ih]

/-- Claim C7: `paste_to_target` pastes into exactly the first visible
window in enumeration order whose title contains the configured
substring (case-insensitively); when no window matches it returns the
soft failure: success is `False`, the status line reports the target as
not found, no paste and no click happen, and no error is raised and no
retry is made (the function totalizes to this single result). -/
theorem paste_target_first_match (tg : PushTarget) (ws : List OSWindow) :
    (paste_to_target tg ws).pastedTo
        = (ws.find? (windowMatches tg.title_pattern)).map (·.hwnd) ∧
    ((paste_to_target tg ws).success = true ↔
        (ws.find? (windowMatches tg.title_pattern)).isSome) ∧
    (ws.find? (windowMatches tg.title_pattern) = none →
      paste_to_target tg ws =
        { success := false, status := "\x27" ++ tg.name ++ "\x27 window not found",
          pastedTo := none, clicked := none }) := by
  have hh := filter_head?_eq_find? (windowMatches tg.title_pattern) ws
  unfold paste_to_target
  rcases hf : ws.filter (windowMatches tg.title_pattern) with _ | ⟨w, rest⟩
  · rw [hf] at hh
    simp only [List.head?_nil] at hh
    rw [← hh]
    simp
  · rw [hf] at hh
    simp only [List.head?_cons] at hh
    rw [← hh]
    simp

/-- Witness for C7: with one hidden matching window and no visible
match, the concrete paste reports the soft not-found failure. -/
theorem paste_target_first_match_witness :
    paste_to_target
        { name := "Discord", title_pattern := "Discord", click_x := none,
          click_y := none, offset_type := none, enabled := true }
        [{ hwnd := 7, title := "Discord", visible := false, rect := (0, 0, 100, 100) }]
      = { success := false, status := "\x27Discord\x27 window not found",
          pastedTo := none, clicked := none } :=
  (paste_target_first_match
    { name := "Discord", title_pattern := "Discord", click_x := none,
      click_y := none, offset_type := none, enabled := true }
    [{ hwnd := 7, title := "Discord", visible := false, rect := (0, 0, 100, 100) }]).2.2
    (by decide)

/-- Claim C4 counterexample: two 1,000,000-byte screenshots (one 40 days
old, one new) against a 1 MB limit sit over 90% with no file ever
added.  The refresh prompts; the user accepts; the cleanup deletes the
old file and clears the once-per-session latch; the re-entrant gallery
refresh re-arms the prompt (usage is still over 90%); and the rescheduled
prompt fires again: two prompts in one session. -/
theorem cleanup_prompt_fires_twice :
    (runSession 1 30 (initialDisk [⟨1000000, 40⟩, ⟨1000000, 0⟩])
        [GalleryEvent.refresh, GalleryEvent.promptAnswer true,
         GalleryEvent.promptAnswer false]).promptCount = 2 := by
  decide

/-- One UI-loop event that is not an accepted prompt preserves the
single-shot prompt invariant. -/
theorem promptInv_step (limit_mb days : Nat) (s : DiskState) (e : GalleryEvent)
    (hinv : promptInv s) (he : e ≠ GalleryEvent.promptAnswer true) :
    promptInv (stepEvent limit_mb days s e) := by
  obtain ⟨h1, h2⟩ := hinv
  cases e with
  | refresh =>
      simp only [stepEvent, refresh_gallery, update_disk_usage]
      split
      · rename_i hc
        simp only [Bool.true_and, Bool.and_eq_true, Bool.not_eq_true'] at hc
        refine ⟨fun _ => rfl, Or.inl ?_⟩
        rcases h2 with h2 | ⟨_, hcpt, _⟩
        · exact h2
        · rw [hcpt] at hc
          exact absurd hc.2 (by simp)
      · exact ⟨h1, h2⟩
  | promptAnswer a =>
      cases a with
      | false =>
          simp only [stepEvent]
          split
          · rename_i hp
            have hcp := h1 hp
            rcases h2 with h2 | ⟨_, _, hppf⟩
            · refine ⟨fun hh => by simp [prompt_cleanup] at hh, Or.inr ⟨?_, ?_, ?_⟩⟩
              · simp [prompt_cleanup, h2]
              · simpa [prompt_cleanup] using hcp
              · simp [prompt_cleanup]
            · rw [hppf] at hp
              exact absurd hp (by simp)
          · exact ⟨h1, h2⟩
      | true => exact absurd rfl he

/-- The single-shot prompt invariant is preserved by any run of events
in which every prompt is declined. -/
theorem promptInv_run (limit_mb days : Nat) (evs : List GalleryEvent) :
    ∀ s : DiskState, promptInv s →
      (∀ e ∈ evs, e ≠ GalleryEvent.promptAnswer true) →
      promptInv (runSession limit_mb days s evs) := by
  induction evs with
  | nil =>
      intro s h _
      simpa [runSession] using h
  | cons e rest ih =>
      intro s h hall
      simp only [runSession, List.foldl_cons]
      exact ih _ (promptInv_step _ _ _ _ h (hall e (by simp)))
        (fun x hx => hall x (by simp [hx]))

/-- Claim C4 (amended): with screenshot files totaling at least 90% of
the configured limit and no new files added, the cleanup prompt fires at
most once per session across arbitrarily many gallery refreshes,
provided the user declines every prompt (or never gets one).  Accepting
a prompt whose cleanup deletes at least one file clears the
once-per-session latch, after which the prompt can fire again while
usage remains at 90% or more. -/
theorem cleanup_prompt_at_most_once_declined (limit_mb days : Nat) (files : List DiskFile)
    (evs : List GalleryEvent)
    (hdecl : ∀ e ∈ evs, e ≠ GalleryEvent.promptAnswer true) :
    (runSession limit_mb days (initialDisk files) evs).promptCount ≤ 1 := by
  have h := promptInv_run limit_mb days evs (initialDisk files)
    ⟨fun hh => by simp [initialDisk] at hh, Or.inl rfl⟩ hdecl
  rcases h.2 with h2 | ⟨h2, _⟩ <;> omega

/-- Witness for the amended C4: a concrete declined session (refresh,
decline, refresh) shows at most one prompt. -/
theorem cleanup_prompt_at_most_once_declined_witness :
    (runSession 1 30 (initialDisk [⟨1000000, 40⟩, ⟨1000000, 0⟩])
        [GalleryEvent.refresh, GalleryEvent.promptAnswer false,
         GalleryEvent.refresh]).promptCount ≤ 1 :=
  cleanup_prompt_at_most_once_declined 1 30 [⟨1000000, 40⟩, ⟨1000000, 0⟩]
    [GalleryEvent.refresh, GalleryEvent.promptAnswer false, GalleryEvent.refresh]
    (by decide)

/-- Claim C1, evaluated at the failing input: starting a region or a
window capture by hotkey with a positive delay and then cancelling the
countdown leaves the in-flight guard set — that cancellation path never
clears it — so a subsequent hotkey press is ignored (the state does not
change at all).  The fullscreen flow, by contrast, does clear the guard
when its countdown is cancelled.  This exhibits the divergence from the
claim that cancelling the region or window countdown is a terminal
state after which the guard is false again. -/
theorem guard_stuck_after_countdown_cancel :
    (_on_region_delay_complete
        (start_region_capture_threadsafe initialTool) false).capture_in_progress = true ∧
    (_on_window_delay_complete
        (start_window_capture_threadsafe initialTool) false).capture_in_progress = true ∧
    (_on_fullscreen_delay_complete
        (capture_fullscreen_threadsafe initialTool) false testImg).capture_in_progress
      = false ∧
    start_region_capture_threadsafe
        (_on_region_delay_complete (start_region_capture_threadsafe initialTool) false)
      = _on_region_delay_complete (start_region_capture_threadsafe initialTool) false :=
  ⟨rfl, rfl, rfl, rfl⟩

end ScreenshotToolSpec
